import Mathlib

/-!
Shallow embedding of `pyhanko/pdf_utils/layout.py`.

Modelling conventions:
- Python numbers (`int`, `fractions.Fraction`, and the `float` scale factors)
  are modelled as `ℚ`; Python division `/` is exact rational division.
- Python exceptions are modelled with `Except LayoutErr`; `LayoutErr`
  distinguishes `BoxSpecificationError`, `LayoutError` (the margin
  over-width error), and `ZeroDivisionError` (raised by `Fraction(_, 0)`
  and by division by zero).
- `logger.warning` calls are modelled by a natural number counting the
  diagnostics emitted by the call.
- Mutation of a `BoxConstraints` instance is modelled by explicit state
  passing: mutators return the updated record.
- Python `int(...)` applied to a rational truncates toward zero (`pyInt`);
  Python `//` is floor division.
-/

namespace PyLayout

/-- The exception kinds of the module: `BoxSpecificationError` (a subclass of
`LayoutError`), the plain `LayoutError` raised by `Margins.effective`, and
`ZeroDivisionError` raised by `Fraction` construction / division by zero. -/
inductive LayoutErr where
  | boxSpec : LayoutErr
  | layout : LayoutErr
  | zeroDiv : LayoutErr
deriving DecidableEq, Repr

/-- Python `int(q)` on a rational: truncation toward zero. -/
def pyInt (q : ℚ) : ℤ :=
  if q < 0 then ⌈q⌉ else ⌊q⌋

/-- The state of a `BoxConstraints` object: fields `_width`, `_height`,
`_ar`, `_fully_specified`.  The dimension fields hold rationals because the
constructor can store exact `Fraction` values in them (see
`BoxConstraints.init`). In the no-argument construction path Python leaves
the `_fully_specified` attribute unassigned; since no code in the module
reads it in that state, we model it as `false` there. -/
structure BoxConstraints where
  _width : Option ℚ
  _height : Option ℚ
  _ar : Option ℚ
  _fully_specified : Bool
deriving DecidableEq, Repr

/-- `BoxConstraints.__init__(width, height, aspect_ratio)`.  The `width` and
`height` arguments are Python ints (so the `int(width)` / `int(height)`
coercions in the source are identities); `aspect_ratio` is a `Fraction`.
Mirrors the branch structure of the source:
- all three `None`: fully unresolved box, early return;
- `width` and `height` given: error if `aspect_ratio` also given, else
  `_ar = Fraction(width, height)` (`ZeroDivisionError` when `height = 0`)
  and `fully_specified = True`;
- otherwise, if `aspect_ratio` is given: store it, and derive the missing
  dimension as the exact product `height * aspect_ratio` resp. exact
  quotient `width / aspect_ratio` (note: the source performs no `int(...)`
  truncation on this path, unlike `_recalculate`);
- otherwise (exactly one dimension, no ratio): store it, nothing derived. -/
def BoxConstraints.init (width height : Option ℤ) (aspect_ratio : Option ℚ) :
    Except LayoutErr BoxConstraints :=
  match width, height, aspect_ratio with
  | none, none, none => .ok ⟨none, none, none, false⟩
  | some _, some _, some _ => .error .boxSpec
  | some w, some h, none =>
      if h = 0 then .error .zeroDiv
      else .ok ⟨some (w : ℚ), some (h : ℚ), some ((w : ℚ) / (h : ℚ)), true⟩
  | w?, h?, some ar =>
      match h? with
      | some h => .ok ⟨some ((h : ℚ) * ar), some (h : ℚ), some ar, false⟩
      | none =>
          match w? with
          | some w =>
              if ar = 0 then .error .zeroDiv
              else .ok ⟨some (w : ℚ), some ((w : ℚ) / ar), some ar, false⟩
          | none => .ok ⟨none, none, some ar, false⟩
  | w?, h?, none =>
      .ok ⟨w?.map (fun w => (w : ℚ)), h?.map (fun h => (h : ℚ)), none, false⟩

/-- `BoxConstraints._recalculate`: if both dimensions are known, derive
`_ar = Fraction(_width, _height)` and mark fully specified; else if `_ar`
and one dimension are known, derive the other as `int(...)` of the exact
product / quotient and mark fully specified; else change nothing. -/
def BoxConstraints._recalculate (b : BoxConstraints) : Except LayoutErr BoxConstraints :=
  match b._width, b._height with
  | some w, some h =>
      if h = 0 then .error .zeroDiv
      else .ok { b with _ar := some (w / h), _fully_specified := true }
  | w?, h? =>
      match b._ar with
      | some ar =>
          match h? with
          | some h =>
              .ok { b with _width := some ((pyInt (h * ar) : ℤ) : ℚ),
                           _fully_specified := true }
          | none =>
              match w? with
              | some w =>
                  if ar = 0 then .error .zeroDiv
                  else .ok { b with _height := some ((pyInt (w / ar) : ℤ) : ℚ),
                                    _fully_specified := true }
              | none => .ok b
      | none => .ok b

/-- The `width` property getter: the stored width, or
`BoxSpecificationError` when undefined. -/
def BoxConstraints.width (b : BoxConstraints) : Except LayoutErr ℚ :=
  match b._width with
  | some w => .ok w
  | none => .error .boxSpec

/-- The `width` property setter: succeeds only when `_width` is unset, then
stores the value and triggers `_recalculate`. -/
def BoxConstraints.setWidth (b : BoxConstraints) (width : ℚ) :
    Except LayoutErr BoxConstraints :=
  match b._width with
  | none => BoxConstraints._recalculate { b with _width := some width }
  | some _ => .error .boxSpec

/-- The `width_defined` property. -/
def BoxConstraints.width_defined (b : BoxConstraints) : Bool :=
  b._width.isSome

/-- The `height` property getter. -/
def BoxConstraints.height (b : BoxConstraints) : Except LayoutErr ℚ :=
  match b._height with
  | some h => .ok h
  | none => .error .boxSpec

/-- The `height` property setter. -/
def BoxConstraints.setHeight (b : BoxConstraints) (height : ℚ) :
    Except LayoutErr BoxConstraints :=
  match b._height with
  | none => BoxConstraints._recalculate { b with _height := some height }
  | some _ => .error .boxSpec

/-- The `height_defined` property. -/
def BoxConstraints.height_defined (b : BoxConstraints) : Bool :=
  b._height.isSome

/-- The `aspect_ratio` property getter. -/
def BoxConstraints.aspect_ratio (b : BoxConstraints) : Except LayoutErr ℚ :=
  match b._ar with
  | some ar => .ok ar
  | none => .error .boxSpec

/-- The `aspect_ratio_defined` property. -/
def BoxConstraints.aspect_ratio_defined (b : BoxConstraints) : Bool :=
  b._ar.isSome

/-- The `InnerScaling` enumeration. -/
inductive InnerScaling where
  | NO_SCALING : InnerScaling
  | STRETCH_FILL : InnerScaling
  | STRETCH_TO_FIT : InnerScaling
  | SHRINK_TO_FIT : InnerScaling
deriving DecidableEq, Repr

/-- The `AxisAlignment` enumeration. -/
inductive AxisAlignment where
  | ALIGN_MIN : AxisAlignment
  | ALIGN_MID : AxisAlignment
  | ALIGN_MAX : AxisAlignment
deriving DecidableEq, Repr

/-- The `flipped` property, from the `_alignment_opposites` table. -/
def AxisAlignment.flipped : AxisAlignment → AxisAlignment
  | .ALIGN_MIN => .ALIGN_MAX
  | .ALIGN_MID => .ALIGN_MID
  | .ALIGN_MAX => .ALIGN_MIN

/-- `Margins.effective(dim_name, container_len, pre, post)`: the effective
length `container_len - pre - post`, raising `LayoutError` when negative.
The `dim_name` argument only feeds the error message. -/
def Margins.effective (dim_name : String) (container_len pre post : ℚ) :
    Except LayoutErr ℚ :=
  let _ := dim_name
  let eff := container_len - pre - post
  if eff < 0 then .error .layout else .ok eff

/-- `AxisAlignment.align(container_len, inner_len, pre_margin, post_margin)`.
The `Margins.effective` computation runs (and can raise `LayoutError`)
before the dispatch on the alignment variant.  The result pairs the offset
with the number of `logger.warning` diagnostics emitted (1 exactly on the
MID overflow fallback path). -/
def AxisAlignment.align (a : AxisAlignment)
    (container_len inner_len pre_margin post_margin : ℚ) :
    Except LayoutErr (ℚ × ℕ) :=
  match Margins.effective "length" container_len pre_margin post_margin with
  | .error e => .error e
  | .ok effective_max_len =>
      match a with
      | .ALIGN_MAX => .ok (container_len - inner_len - post_margin, 0)
      | .ALIGN_MIN => .ok (pre_margin, 0)
      | .ALIGN_MID =>
          if inner_len > effective_max_len then
            -- logger.warning: content too wide, post_margin ignored
            .ok (pre_margin, 1)
          else
            .ok (pre_margin + ((⌊(effective_max_len - inner_len) / 2⌋ : ℤ) : ℚ), 0)

/-- The `Positioning` dataclass (offsets and scale factors). -/
structure Positioning where
  x_pos : ℚ
  y_pos : ℚ
  x_scale : ℚ
  y_scale : ℚ
deriving DecidableEq, Repr

/-- The `Margins` dataclass: four integer insets, default zero. -/
structure Margins where
  left : ℤ := 0
  right : ℤ := 0
  top : ℤ := 0
  bottom : ℤ := 0
deriving DecidableEq, Repr

/-- `Margins.uniform(num)`. -/
def Margins.uniform (num : ℤ) : Margins :=
  ⟨num, num, num, num⟩

/-- `Margins.effective_width`. -/
def Margins.effective_width (m : Margins) (width : ℚ) : Except LayoutErr ℚ :=
  Margins.effective "width" width (m.left : ℚ) (m.right : ℚ)

/-- `Margins.effective_height`: bottom is the pre-margin, top the post-margin. -/
def Margins.effective_height (m : Margins) (height : ℚ) : Except LayoutErr ℚ :=
  Margins.effective "height" height (m.bottom : ℚ) (m.top : ℚ)

/-- `_aln_width`: align within the resolved width, or auto-size the
container (via the `width` setter, hence through `_recalculate`) and return
the pre-margin.  Returns (offset, diagnostics emitted, updated box). -/
def _aln_width (alignment : AxisAlignment) (container_box : BoxConstraints)
    (inner_nat_width pre_margin post_margin : ℚ) :
    Except LayoutErr (ℚ × ℕ × BoxConstraints) :=
  match container_box._width with
  | some w =>
      (alignment.align w inner_nat_width pre_margin post_margin).map
        (fun p => (p.1, p.2, container_box))
  | none =>
      (container_box.setWidth (inner_nat_width + pre_margin + post_margin)).map
        (fun b => (pre_margin, 0, b))

/-- `_aln_height`: the height counterpart of `_aln_width`. -/
def _aln_height (alignment : AxisAlignment) (container_box : BoxConstraints)
    (inner_nat_height pre_margin post_margin : ℚ) :
    Except LayoutErr (ℚ × ℕ × BoxConstraints) :=
  match container_box._height with
  | some h =>
      (alignment.align h inner_nat_height pre_margin post_margin).map
        (fun p => (p.1, p.2, container_box))
  | none =>
      (container_box.setHeight (inner_nat_height + pre_margin + post_margin)).map
        (fun b => (pre_margin, 0, b))

/-- The `SimpleBoxLayoutRule` dataclass. -/
structure SimpleBoxLayoutRule where
  x_align : AxisAlignment
  y_align : AxisAlignment
  margins : Margins := {}
  inner_content_scaling : InnerScaling := .SHRINK_TO_FIT
deriving DecidableEq, Repr

/-- `SimpleBoxLayoutRule.substitute_margins`. -/
def SimpleBoxLayoutRule.substitute_margins (rule : SimpleBoxLayoutRule)
    (new_margins : Margins) : SimpleBoxLayoutRule :=
  { rule with margins := new_margins }

/-- The scale-selection block at the top of `SimpleBoxLayoutRule.fit`
(the statements from `x_scale = y_scale = 1` through the
`SHRINK_TO_FIT` branch): when scaling is enabled and both container
dimensions are resolved, the base scales are the effective interior
lengths divided by the natural content lengths (`ZeroDivisionError` when a
natural length is zero), then the two fit policies clamp them; in every
other case both scales stay 1. -/
def SimpleBoxLayoutRule.fitScales (rule : SimpleBoxLayoutRule)
    (container_box : BoxConstraints) (inner_nat_width inner_nat_height : ℚ) :
    Except LayoutErr (ℚ × ℚ) :=
  let margins := rule.margins
  let scaling := rule.inner_content_scaling
  if scaling ≠ InnerScaling.NO_SCALING ∧
      container_box.width_defined ∧ container_box.height_defined then
    match container_box.width with
    | .error e => .error e
    | .ok w =>
        match container_box.height with
        | .error e => .error e
        | .ok h =>
            match margins.effective_width w with
            | .error e => .error e
            | .ok eff_width =>
                match margins.effective_height h with
                | .error e => .error e
                | .ok eff_height =>
                    if inner_nat_width = 0 then .error .zeroDiv
                    else if inner_nat_height = 0 then .error .zeroDiv
                    else
                      let x_scale := eff_width / inner_nat_width
                      let y_scale := eff_height / inner_nat_height
                      if scaling = InnerScaling.STRETCH_TO_FIT then
                        .ok (min x_scale y_scale, min x_scale y_scale)
                      else if scaling = InnerScaling.SHRINK_TO_FIT then
                        .ok (min (min x_scale y_scale) 1,
                             min (min x_scale y_scale) 1)
                      else
                        .ok (x_scale, y_scale)
  else
    .ok (1, 1)

/-- `SimpleBoxLayoutRule.fit(container_box, inner_nat_width,
inner_nat_height)`: scale selection (`fitScales`), then the per-axis
alignment / auto-sizing steps, threading the mutable container box.
Returns the `Positioning`, the final box state, and the total number of
diagnostics emitted. -/
def SimpleBoxLayoutRule.fit (rule : SimpleBoxLayoutRule)
    (container_box : BoxConstraints) (inner_nat_width inner_nat_height : ℚ) :
    Except LayoutErr (Positioning × BoxConstraints × ℕ) :=
  let margins := rule.margins
  match rule.fitScales container_box inner_nat_width inner_nat_height with
  | .error e => .error e
  | .ok (x_scale, y_scale) =>
      match _aln_width rule.x_align container_box
          (inner_nat_width * x_scale) (margins.left : ℚ) (margins.right : ℚ) with
      | .error e => .error e
      | .ok (x_pos, warns1, box1) =>
          match _aln_height rule.y_align box1
              (inner_nat_height * y_scale) (margins.bottom : ℚ) (margins.top : ℚ) with
          | .error e => .error e
          | .ok (y_pos, warns2, box2) =>
              .ok (⟨x_pos, y_pos, x_scale, y_scale⟩, box2, warns1 + warns2)

/-- Modelled from the spec wording of the scale-selection step: the scale
pair each scaling policy is claimed to produce from the base scales
`xs = effWidth / innerNatWidth` and `ys = effHeight / innerNatHeight`
(the catch-all arm realizes STRETCH_FILL as the implicit fallback).
Used only to compare `fitScales` against the spec. -/
def claimedScales : InnerScaling → ℚ → ℚ → ℚ × ℚ
  | .STRETCH_TO_FIT, xs, ys => (min xs ys, min xs ys)
  | .SHRINK_TO_FIT, xs, ys => (min (min xs ys) 1, min (min xs ys) 1)
  | _, xs, ys => (xs, ys)

/-- Helper: `_recalculate` never raises `BoxSpecificationError` (its only
failure mode is the `ZeroDivisionError` of `Fraction(_, 0)` or of division
by a zero ratio). -/
theorem recalculate_no_boxSpec (b : BoxConstraints) :
    BoxConstraints._recalculate b ≠ .error .boxSpec := by
  unfold BoxConstraints._recalculate
  repeat' split
  all_goals simp

/-- C9: for every alignment variant, including ALIGN_MIN and ALIGN_MAX,
`align` raises a `LayoutError` whenever the two margins together exceed the
container length, because the effective interior length is computed and
validated before the dispatch on the variant. -/
theorem align_margin_error (a : AxisAlignment) (c i pre post : ℚ)
    (h : pre + post > c) :
    a.align c i pre post = .error .layout := by
  have h0 : c - pre - post < 0 := by linarith
  simp [AxisAlignment.align, Margins.effective, h0]

/-- Witness for C9 at ALIGN_MIN with container 10 and margins 6 and 6. -/
theorem align_margin_error_witness :
    AxisAlignment.ALIGN_MIN.align 10 0 6 6 = .error .layout :=
  align_margin_error .ALIGN_MIN 10 0 6 6 (by norm_num)

/-- C3 counterexample: the offset formulas do not hold for all inputs.
At container 10 with margins 6 and 6, ALIGN_MAX raises a `LayoutError`
instead of returning 10 - 0 - 6 = 4, because the effective-length
validation runs before the variant dispatch. -/
theorem align_max_formula_not_total :
    AxisAlignment.ALIGN_MAX.align 10 0 6 6 = .error .layout ∧
    AxisAlignment.ALIGN_MAX.align 10 0 6 6 ≠ .ok (10 - 0 - 6, 0) := by
  have h : AxisAlignment.ALIGN_MAX.align 10 0 6 6 = .error .layout := by
    norm_num [AxisAlignment.align, Margins.effective]
  exact ⟨h, by rw [h]; simp⟩

/-- C3 (amended): whenever the margins fit in the container
(preMargin + postMargin ≤ containerLen), ALIGN_MAX.align returns
containerLen - innerLen - postMargin, ALIGN_MIN.align returns preMargin,
and ALIGN_MID.align, when innerLen ≤ containerLen - preMargin - postMargin,
returns preMargin + floor of half the slack. -/
theorem align_offset_formulas (c i pre post : ℚ) (h : pre + post ≤ c) :
    AxisAlignment.ALIGN_MAX.align c i pre post = .ok (c - i - post, 0) ∧
    AxisAlignment.ALIGN_MIN.align c i pre post = .ok (pre, 0) ∧
    (i ≤ c - pre - post →
      AxisAlignment.ALIGN_MID.align c i pre post =
        .ok (pre + ((⌊(c - pre - post - i) / 2⌋ : ℤ) : ℚ), 0)) := by
  have h0 : ¬(c - pre - post < 0) := by linarith
  refine ⟨?_, ?_, ?_⟩
  · simp [AxisAlignment.align, Margins.effective, h0]
  · simp [AxisAlignment.align, Margins.effective, h0]
  · intro hi
    have h1 : ¬(i > c - pre - post) := by linarith
    simp [AxisAlignment.align, Margins.effective, h0, h1]

/-- Witness for the amended C3 at container 100, inner 20, margins 5 and 5. -/
theorem align_offset_formulas_witness :
    AxisAlignment.ALIGN_MAX.align 100 20 5 5 = .ok (75, 0) ∧
    AxisAlignment.ALIGN_MIN.align 100 20 5 5 = .ok (5, 0) ∧
    AxisAlignment.ALIGN_MID.align 100 20 5 5 = .ok (40, 0) := by
  obtain ⟨h1, h2, h3⟩ := align_offset_formulas 100 20 5 5 (by norm_num)
  refine ⟨?_, h2, ?_⟩
  · rw [h1]; norm_num
  · rw [h3 (by norm_num)]; norm_num

/-- C5: ALIGN_MID.align with a non-negative effective interior length that
is smaller than the inner length does not fail: it emits exactly one
diagnostic and returns the pre-margin, degrading to ALIGN_MIN behaviour. -/
theorem align_mid_overflow (c i pre post : ℚ)
    (h0 : c - pre - post ≥ 0) (h1 : i > c - pre - post) :
    AxisAlignment.ALIGN_MID.align c i pre post = .ok (pre, 1) := by
  have h2 : ¬(c - pre - post < 0) := by linarith
  simp [AxisAlignment.align, Margins.effective, h2, h1]

/-- Witness for C5: the spec example align(100, 95, 5, 5) = 5 with one
diagnostic. -/
theorem align_mid_overflow_witness :
    AxisAlignment.ALIGN_MID.align 100 95 5 5 = .ok (5, 1) :=
  align_mid_overflow 100 95 5 5 (by norm_num) (by norm_num)

/-- C7: constructing a BoxConstraints with all three of width, height and
aspect ratio raises a `BoxSpecificationError` for every combination of
values, including mutually consistent ones: the overspecification check
fires before any consistency could be examined. -/
theorem init_overspecified (w h : ℤ) (ar : ℚ) :
    BoxConstraints.init (some w) (some h) (some ar) = .error .boxSpec := rfl

/-- C8: constructing with an aspect ratio and exactly one dimension leaves
`_fully_specified` false even though both dimensions end up numerically
known, while constructing with both dimensions (ratio omitted) sets it
true; the side conditions exclude the `ZeroDivisionError` paths
(zero ratio resp. zero height). -/
theorem init_fully_specified_asymmetry (w h : ℤ) (ar : ℚ) :
    BoxConstraints.init none (some h) (some ar) =
      .ok ⟨some ((h : ℚ) * ar), some (h : ℚ), some ar, false⟩ ∧
    (ar ≠ 0 → BoxConstraints.init (some w) none (some ar) =
      .ok ⟨some (w : ℚ), some ((w : ℚ) / ar), some ar, false⟩) ∧
    (h ≠ 0 → BoxConstraints.init (some w) (some h) none =
      .ok ⟨some (w : ℚ), some (h : ℚ), some ((w : ℚ) / (h : ℚ)), true⟩) := by
  refine ⟨rfl, ?_, ?_⟩
  · intro har; simp [BoxConstraints.init, har]
  · intro hh; simp [BoxConstraints.init, hh]

/-- Witness for C8 at width 10, height 5, ratio 2: both ratio-based
construction paths leave the flag false, the two-dimension path sets it. -/
theorem init_fully_specified_asymmetry_witness :
    BoxConstraints.init none (some 5) (some 2) =
      .ok ⟨some 10, some 5, some 2, false⟩ ∧
    BoxConstraints.init (some 10) none (some 2) =
      .ok ⟨some 10, some 5, some 2, false⟩ ∧
    BoxConstraints.init (some 10) (some 5) none =
      .ok ⟨some 10, some 5, some 2, true⟩ := by
  obtain ⟨h1, h2, h3⟩ := init_fully_specified_asymmetry 10 5 2
  refine ⟨?_, ?_, ?_⟩
  · rw [h1]; norm_num
  · rw [h2 (by norm_num)]; norm_num
  · rw [h3 (by norm_num)]; norm_num

/-- C4: at the failing input BoxConstraints(height=5, aspect_ratio=1/2) the
constructor stores the exact rational 5/2 as the width, skipping the
int(...) truncation toward zero, while `_recalculate` at the same state
derives the truncated width int(5 * 1/2) = 2 and 5/2 differs from it.
The constructor therefore does not use the truncation rule of
recalculation, contradicting the declared `Optional[int]` type of the
width field. -/
theorem init_ratio_path_skips_truncation :
    BoxConstraints.init none (some 5) (some (1/2)) =
      .ok ⟨some ((5 : ℚ) / 2), some 5, some (1/2), false⟩ ∧
    ((5 : ℚ) / 2) ≠ ((pyInt ((5 : ℚ) * (1/2)) : ℤ) : ℚ) ∧
    BoxConstraints._recalculate ⟨none, some 5, some (1/2), false⟩ =
      .ok ⟨some ((pyInt ((5 : ℚ) * (1/2)) : ℤ) : ℚ), some 5, some (1/2), true⟩ := by
  refine ⟨?_, ?_, ?_⟩
  · norm_num [BoxConstraints.init]
  · norm_num [pyInt]
  · norm_num [BoxConstraints._recalculate, pyInt]

/-- C6: reading width, height or aspect ratio raises a
`BoxSpecificationError` exactly when the field is unset and returns the
stored value otherwise; the three defined-probes are total boolean tests of
the fields; assigning a dimension raises a `BoxSpecificationError` exactly
when it is already defined, and otherwise stores the value and triggers
`_recalculate` on the updated state. -/
theorem box_accessor_mutator_spec (b : BoxConstraints) (v : ℚ) :
    (b.width = .error .boxSpec ↔ b._width = none) ∧
    (∀ w, b._width = some w → b.width = .ok w) ∧
    (b.height = .error .boxSpec ↔ b._height = none) ∧
    (∀ h, b._height = some h → b.height = .ok h) ∧
    (b.aspect_ratio = .error .boxSpec ↔ b._ar = none) ∧
    (∀ r, b._ar = some r → b.aspect_ratio = .ok r) ∧
    (b.width_defined = true ↔ b._width ≠ none) ∧
    (b.height_defined = true ↔ b._height ≠ none) ∧
    (b.aspect_ratio_defined = true ↔ b._ar ≠ none) ∧
    (b.setWidth v = .error .boxSpec ↔ b._width ≠ none) ∧
    (b._width = none →
      b.setWidth v = BoxConstraints._recalculate { b with _width := some v }) ∧
    (b.setHeight v = .error .boxSpec ↔ b._height ≠ none) ∧
    (b._height = none →
      b.setHeight v = BoxConstraints._recalculate { b with _height := some v }) := by
  refine ⟨?_, ?_, ?_, ?_, ?_, ?_, ?_, ?_, ?_, ?_, ?_, ?_, ?_⟩
  · cases h : b._width <;> simp [BoxConstraints.width, h]
  · intro w hw; simp [BoxConstraints.width, hw]
  · cases h : b._height <;> simp [BoxConstraints.height, h]
  · intro hv hh; simp [BoxConstraints.height, hh]
  · cases h : b._ar <;> simp [BoxConstraints.aspect_ratio, h]
  · intro r hr; simp [BoxConstraints.aspect_ratio, hr]
  · cases h : b._width <;> simp [BoxConstraints.width_defined, h]
  · cases h : b._height <;> simp [BoxConstraints.height_defined, h]
  · cases h : b._ar <;> simp [BoxConstraints.aspect_ratio_defined, h]
  · cases h : b._width with
    | none => simp [BoxConstraints.setWidth, h, recalculate_no_boxSpec]
    | some w => simp [BoxConstraints.setWidth, h]
  · intro hw; simp [BoxConstraints.setWidth, hw]
  · cases h : b._height with
    | none => simp [BoxConstraints.setHeight, h, recalculate_no_boxSpec]
    | some hgt => simp [BoxConstraints.setHeight, h]
  · intro hh; simp [BoxConstraints.setHeight, hh]

/-- Witness for C6 on the box with only a height: reading the width fails,
reading the height succeeds, and re-assigning the height fails. -/
theorem box_accessor_mutator_spec_witness :
    BoxConstraints.width ⟨none, some 5, none, false⟩ = .error .boxSpec ∧
    BoxConstraints.height ⟨none, some 5, none, false⟩ = .ok 5 ∧
    BoxConstraints.setHeight ⟨none, some 5, none, false⟩ 3 = .error .boxSpec := by
  obtain ⟨h1, h2, h3, h4, h5, h6, h7, h8, h9, h10, h11, h12, h13⟩ :=
    box_accessor_mutator_spec ⟨none, some 5, none, false⟩ 3
  exact ⟨h1.mpr rfl, h4 5 rfl, h12.mpr (by simp)⟩

/-- C1: when the scaling policy is not NO_SCALING and the container has
both dimensions resolved (and the effective lengths and divisions are
defined), the scale factors of `fit` are the base ratios
effWidth / innerNatWidth and effHeight / innerNatHeight transformed per
policy as `claimedScales` states (minimum for STRETCH_TO_FIT, minimum
clamped at 1 for SHRINK_TO_FIT, kept independent for the STRETCH_FILL
fallback); in every other case both scale factors are 1. -/
theorem fitScales_spec (rule : SimpleBoxLayoutRule) (box : BoxConstraints)
    (iw ih : ℚ) :
    (∀ w h effW effH,
      rule.inner_content_scaling ≠ InnerScaling.NO_SCALING →
      box._width = some w → box._height = some h →
      rule.margins.effective_width w = .ok effW →
      rule.margins.effective_height h = .ok effH →
      iw ≠ 0 → ih ≠ 0 →
      rule.fitScales box iw ih =
        .ok (claimedScales rule.inner_content_scaling (effW / iw) (effH / ih))) ∧
    ((rule.inner_content_scaling = InnerScaling.NO_SCALING ∨
        box._width = none ∨ box._height = none) →
      rule.fitScales box iw ih = .ok (1, 1)) := by
  constructor
  · intro w h effW effH hs hw hh heW heH hiw hih
    rcases s : rule.inner_content_scaling <;>
      simp_all [SimpleBoxLayoutRule.fitScales, BoxConstraints.width,
        BoxConstraints.height, BoxConstraints.width_defined,
        BoxConstraints.height_defined, claimedScales]
  · intro hcase
    have hcond : ¬(rule.inner_content_scaling ≠ InnerScaling.NO_SCALING ∧
        box.width_defined = true ∧ box.height_defined = true) := by
      rcases hcase with h | h | h <;>
        simp [BoxConstraints.width_defined, BoxConstraints.height_defined, h]
    simp only [SimpleBoxLayoutRule.fitScales]
    rw [if_neg hcond]

/-- Witness for C1: SHRINK_TO_FIT in a 200 by 100 container with natural
size 100 by 100 and no margins gives scales min(2, 1, 1) = 1. -/
theorem fitScales_spec_witness :
    SimpleBoxLayoutRule.fitScales ⟨.ALIGN_MID, .ALIGN_MID, {}, .SHRINK_TO_FIT⟩
      ⟨some 200, some 100, some 2, true⟩ 100 100 = .ok (1, 1) := by
  have h := (fitScales_spec ⟨.ALIGN_MID, .ALIGN_MID, {}, .SHRINK_TO_FIT⟩
      ⟨some 200, some 100, some 2, true⟩ 100 100).1 200 100 200 100
      (by simp) rfl rfl
      (by norm_num [Margins.effective_width, Margins.effective])
      (by norm_num [Margins.effective_height, Margins.effective])
      (by norm_num) (by norm_num)
  rw [h]; norm_num [claimedScales]

/-- C2 counterexample: `fit` on the fully unresolved box with natural size
5 by 0 and zero margins raises `ZeroDivisionError` instead of auto-sizing
both dimensions and returning a positioning, because the height write-back
resolves the height to 0 and the recalculation then builds
Fraction(5, 0). -/
theorem fit_unresolved_zero_height_error :
    SimpleBoxLayoutRule.fit ⟨.ALIGN_MIN, .ALIGN_MIN, {}, .SHRINK_TO_FIT⟩
      ⟨none, none, none, false⟩ 5 0 = .error .zeroDiv := by
  norm_num [SimpleBoxLayoutRule.fit, SimpleBoxLayoutRule.fitScales,
    _aln_width, _aln_height, BoxConstraints.setWidth, BoxConstraints.setHeight,
    BoxConstraints._recalculate, BoxConstraints.width_defined,
    BoxConstraints.height_defined, Except.map]

/-- C2 (amended): `fit` on a fully unresolved BoxConstraints (width, height
and aspect ratio all unset), provided innerNatHeight plus the vertical
margins is nonzero, mutates the container so that the width becomes
innerNatWidth + left + right and the height becomes
innerNatHeight + bottom + top, and returns offsets equal to the
pre-margins with both scales 1 and no diagnostics (the final state also
carries the derived aspect ratio). -/
theorem fit_unresolved_autosizes (rule : SimpleBoxLayoutRule) (iw ih : ℚ)
    (h : ih + (rule.margins.bottom : ℚ) + (rule.margins.top : ℚ) ≠ 0) :
    rule.fit ⟨none, none, none, false⟩ iw ih =
      .ok (⟨(rule.margins.left : ℚ), (rule.margins.bottom : ℚ), 1, 1⟩,
        ⟨some (iw + (rule.margins.left : ℚ) + (rule.margins.right : ℚ)),
         some (ih + (rule.margins.bottom : ℚ) + (rule.margins.top : ℚ)),
         some ((iw + (rule.margins.left : ℚ) + (rule.margins.right : ℚ)) /
               (ih + (rule.margins.bottom : ℚ) + (rule.margins.top : ℚ))),
         true⟩, 0) := by
  simp [SimpleBoxLayoutRule.fit, SimpleBoxLayoutRule.fitScales,
    _aln_width, _aln_height, BoxConstraints.setWidth, BoxConstraints.setHeight,
    BoxConstraints._recalculate, BoxConstraints.width_defined,
    BoxConstraints.height_defined, Except.map, h]

/-- Witness for the amended C2 with margins left 1, right 2, top 3,
bottom 4 and natural size 10 by 20: width 13, height 27, offsets 1 and 4. -/
theorem fit_unresolved_autosizes_witness :
    SimpleBoxLayoutRule.fit ⟨.ALIGN_MID, .ALIGN_MID, ⟨1, 2, 3, 4⟩, .SHRINK_TO_FIT⟩
      ⟨none, none, none, false⟩ 10 20 =
      .ok (⟨1, 4, 1, 1⟩, ⟨some 13, some 27, some (13/27), true⟩, 0) := by
  have h := fit_unresolved_autosizes
    ⟨.ALIGN_MID, .ALIGN_MID, ⟨1, 2, 3, 4⟩, .SHRINK_TO_FIT⟩ 10 20 (by norm_num)
  rw [h]; norm_num

/-- C10: on a container with only the aspect ratio defined, the x-axis
write-back of `fit` resolves the width to innerNatWidth + left + right and
its recalculation derives the height as the truncated quotient
width / aspectRatio and marks the box fully specified; the y axis is then
aligned within that derived height (offset and diagnostics come from the
align call) instead of being auto-sized, so only the x axis is auto-sized. -/
theorem fit_ar_autosize_couples_axes (rule : SimpleBoxLayoutRule)
    (ar iw ih : ℚ) (fs : Bool) (har : ar ≠ 0) (yoff : ℚ) (warns : ℕ)
    (halign : rule.y_align.align
        ((pyInt ((iw + (rule.margins.left : ℚ) + (rule.margins.right : ℚ)) / ar) : ℤ) : ℚ)
        ih (rule.margins.bottom : ℚ) (rule.margins.top : ℚ) = .ok (yoff, warns)) :
    rule.fit ⟨none, none, some ar, fs⟩ iw ih =
      .ok (⟨(rule.margins.left : ℚ), yoff, 1, 1⟩,
        ⟨some (iw + (rule.margins.left : ℚ) + (rule.margins.right : ℚ)),
         some ((pyInt ((iw + (rule.margins.left : ℚ) + (rule.margins.right : ℚ)) / ar) : ℤ) : ℚ),
         some ar, true⟩, warns) := by
  simp [SimpleBoxLayoutRule.fit, SimpleBoxLayoutRule.fitScales,
    _aln_width, _aln_height, BoxConstraints.setWidth, BoxConstraints.setHeight,
    BoxConstraints._recalculate, BoxConstraints.width_defined,
    BoxConstraints.height_defined, Except.map, har, halign]

/-- Witness for C10: ratio 1, natural size 10 by 4, no margins; the width
write-back derives height 10 and the y axis centers 4 inside it at 3. -/
theorem fit_ar_autosize_couples_axes_witness :
    SimpleBoxLayoutRule.fit ⟨.ALIGN_MID, .ALIGN_MID, {}, .SHRINK_TO_FIT⟩
      ⟨none, none, some 1, false⟩ 10 4 =
      .ok (⟨0, 3, 1, 1⟩, ⟨some 10, some 10, some 1, true⟩, 0) := by
  have h := fit_ar_autosize_couples_axes
    ⟨.ALIGN_MID, .ALIGN_MID, {}, .SHRINK_TO_FIT⟩ 1 10 4 false (by norm_num) 3 0
    (by norm_num [pyInt, AxisAlignment.align, Margins.effective])
  rw [h]; norm_num [pyInt]

end PyLayout
